import Mathlib

/-!
Verification development for the data-socket module (socket.go) of the
server package.  The Go code is embedded shallowly: the operating system
and the network are an explicit oracle (Env), logging effects are an
explicit Output record, and the background accept goroutine together with
the WaitGroup synchronisation is a small-step interleaving system (Sys,
Step) further below.  Machine integers do not overflow in this module
(ports and byte counts), so Nat is used directly.
-/

namespace Server

/-- Errors produced by the network oracle, mirroring the error values the Go
code can receive from the net and tls packages, plus the two failure modes
of the code itself: the strconv.Atoi failure when parsing the bound port,
and the nil-pointer dereference that would occur if Read or Write reached
the connection while it is nil. -/
inductive NetError where
  | resolveError (addr : String)
  | dialError (addr : String)
  | listenError (addr : String)
  | atoiError (addr : String)
  | acceptTimeout
  | acceptError (msg : String)
  | nilConnPanic
deriving DecidableEq, Repr

/-- Rendering of an error used when the code passes an error value to
logger.Print. -/
def NetError.message : NetError → String
  | .resolveError a => "resolve error " ++ a
  | .dialError a => "dial error " ++ a
  | .listenError a => "listen error " ++ a
  | .atoiError a => "atoi error " ++ a
  | .acceptTimeout => "accept timeout"
  | .acceptError m => "accept error " ++ m
  | .nilConnPanic => "nil connection"

/-- A net.Conn value: an identifier chosen by the oracle, together with a
flag telling whether the stream is a TLS server connection (produced by a
tls.NewListener wrapped listener) or a raw accepted/dialed TCP stream. -/
structure Conn where
  id : Nat
  isTLS : Bool
deriving DecidableEq, Repr

/-- A tls.Config value; its contents are irrelevant to this module, only
presence or absence matters. -/
structure TLSConfig where
  certId : Nat
deriving DecidableEq, Repr

/-- A net.Listener: either the concrete net.TCPListener returned by
net.ListenTCP, carrying the string form of its bound address
(listener.Addr().String()), or a TLS wrapper produced by tls.NewListener. -/
inductive Listener where
  | tcp (addrString : String)
  | tlsWrapped (inner : Listener)
deriving DecidableEq, Repr

/-- The Go type assertion listener.(net.TCPListener) performed by the
accept goroutine: it yields the listener when it is the concrete TCP
listener and panics otherwise; the panic is the none branch. -/
def assertTCPListener : Listener → Option Listener
  | .tcp a => some (.tcp a)
  | .tlsWrapped _ => none

/-- The operating-system and network oracle.  Each field answers one kind
of call the Go code makes; the answers are fixed functions so the
embedding stays deterministic and executable. -/
structure Env where
  resolve : String → Except NetError String
  dial : String → Nat → Except NetError Conn
  listenTCP : String → Except NetError String
  acceptRaw : String → Except NetError Nat
  connRead : Conn → List Nat → Nat × Option NetError
  connWrite : Conn → List Nat → Nat × Option NetError
  connClose : Conn → Option NetError

/-- listener.Accept(): a raw TCP listener hands back a raw (non-TLS)
stream; a tls.NewListener wrapper hands back the same stream upgraded to a
TLS server connection (the transparent handshake of the tls package). -/
def listenerAccept (env : Env) : Listener → Except NetError Conn
  | .tcp a => (env.acceptRaw a).map fun i => { id := i, isTLS := false }
  | .tlsWrapped L => (listenerAccept env L).map fun c => { c with isTLS := true }

/-- Observable logging effects of one call: sinkLog records the
logger.Print(sessionID, message) calls (the diagnostic sink of the spec),
stdout records fmt.Println output.  The two channels are kept separate
because only sinkLog reaches the caller-supplied sink. -/
structure Output where
  sinkLog : List (String × String)
  stdout : List String
deriving DecidableEq, Repr

/-- Splitting accumulator: strings.Split on a single separator character,
empty pieces preserved. -/
def splitOnCharAux (c : Char) : List Char → List Char → List (List Char)
  | [], acc => [acc.reverse]
  | x :: xs, acc =>
    if x = c then acc.reverse :: splitOnCharAux c xs []
    else splitOnCharAux c xs (x :: acc)

/-- strings.Split of a character list at every occurrence of c. -/
def splitOnChar (c : Char) (l : List Char) : List (List Char) :=
  splitOnCharAux c l []

/-- Digit accumulator for strconv.Atoi. -/
def atoiNatAux : List Char → Nat → Option Nat
  | [], acc => some acc
  | x :: xs, acc =>
    if '0' ≤ x ∧ x ≤ '9' then atoiNatAux xs (acc * 10 + (x.toNat - 48))
    else none

/-- strconv.Atoi on an unsigned decimal: the empty string and any
non-digit character are errors (none). -/
def atoiNat : List Char → Option Nat
  | [] => none
  | l => atoiNatAux l 0

/-- Decimal digits of n, with fuel for structural recursion. -/
def natDigits : Nat → Nat → List Char
  | 0, _ => []
  | fuel+1, n =>
    if n < 10 then [Char.ofNat (48 + n)]
    else natDigits fuel (n / 10) ++ [Char.ofNat (48 + n % 10)]

/-- strconv.Itoa on a natural number. -/
def natToString (n : Nat) : String := String.mk (natDigits (n + 1) n)

/-- net.JoinHostPort: hosts containing a colon are bracketed. -/
def joinHostPort (host port : String) : String :=
  if host.data.contains ':' then "[" ++ host ++ "]:" ++ port else host ++ ":" ++ port

/-- The 15 second bound passed to net.DialTimeout and to SetDeadline. -/
def dialTimeoutSeconds : Nat := 15

/-- The ftpActiveSocket struct. -/
structure ftpActiveSocket where
  conn : Conn
  host : String
  port : Nat
deriving DecidableEq, Repr

/-- newActiveSocket: log the attempt through the sink, resolve the remote
address, dial it with the 15 second bound, and on success build the socket
and print the open line on stdout.  Both failure branches log the error
through the sink and return it with no socket. -/
def openActiveMsg (remote : String) (port : Nat) : String :=
  "Opening active data connection to " ++ joinHostPort remote (natToString port)

def newActiveSocket (env : Env) (remote : String) (port : Nat) (sessionID : String) :
    Except NetError ftpActiveSocket × Output :=
  match env.resolve (joinHostPort remote (natToString port)) with
  | .error e =>
    (.error e,
      { sinkLog := [(sessionID, openActiveMsg remote port), (sessionID, e.message)],
        stdout := [] })
  | .ok raddr =>
    match env.dial raddr dialTimeoutSeconds with
    | .error e =>
      (.error e,
        { sinkLog := [(sessionID, openActiveMsg remote port), (sessionID, e.message)],
          stdout := [] })
    | .ok tcpConn =>
      (.ok { conn := tcpConn, host := remote, port := port },
        { sinkLog := [(sessionID, openActiveMsg remote port)],
          stdout := ["open " ++ natToString port] })

def ftpActiveSocket.Host (s : ftpActiveSocket) : String := s.host

def ftpActiveSocket.Port (s : ftpActiveSocket) : Nat := s.port

def ftpActiveSocket.Read (env : Env) (s : ftpActiveSocket) (p : List Nat) :
    Nat × Option NetError :=
  env.connRead s.conn p

def ftpActiveSocket.Write (env : Env) (s : ftpActiveSocket) (p : List Nat) :
    Nat × Option NetError :=
  env.connWrite s.conn p

/-- ftpActiveSocket.Close prints the close line on stdout (fmt.Println, not
the sink) and closes the underlying stream. -/
def ftpActiveSocket.Close (env : Env) (s : ftpActiveSocket) :
    Option NetError × Output :=
  (env.connClose s.conn, { sinkLog := [], stdout := ["close " ++ natToString s.port] })

/-- The ftpPassiveSocket struct.  ingress and egress are the two declared
channels that no code path ever uses; wgCount is the counter of the
sync.WaitGroup wg; conn and err are the fields the accept goroutine
writes. -/
structure ftpPassiveSocket where
  conn : Option Conn
  port : Nat
  host : String
  ingress : List (List Nat)
  egress : List (List Nat)
  err : Option NetError
  wgCount : Nat
  tlsConfig : Option TLSConfig
deriving DecidableEq, Repr

def ftpPassiveSocket.Host (s : ftpPassiveSocket) : String := s.host

def ftpPassiveSocket.Port (s : ftpPassiveSocket) : Nat := s.port

/-- waitForOpenSocket, value view: the value the call returns once it
completes.  The call returns nil immediately when conn is already set;
otherwise it sits in wg.Wait() until the goroutine has called Done and then
returns the err field.  The blocking itself is modelled by the step system
below (readerWake fires only when the WaitGroup counter is zero); this
function gives the returned value. -/
def ftpPassiveSocket.waitForOpenSocket (s : ftpPassiveSocket) : Option NetError :=
  if s.conn.isSome then none else s.err

/-- ftpPassiveSocket.Read: guard through waitForOpenSocket, then read from
the accepted stream.  The nilConnPanic branch is the nil dereference the Go
code would hit if the guard returned nil with no connection present. -/
def ftpPassiveSocket.Read (env : Env) (s : ftpPassiveSocket) (p : List Nat) :
    Nat × Option NetError :=
  match s.waitForOpenSocket with
  | some e => (0, some e)
  | none =>
    match s.conn with
    | some c => env.connRead c p
    | none => (0, some .nilConnPanic)

/-- ftpPassiveSocket.Write, same guard as Read. -/
def ftpPassiveSocket.Write (env : Env) (s : ftpPassiveSocket) (p : List Nat) :
    Nat × Option NetError :=
  match s.waitForOpenSocket with
  | some e => (0, some e)
  | none =>
    match s.conn with
    | some c => env.connWrite c p
    | none => (0, some .nilConnPanic)

/-- ftpPassiveSocket.Close: when a connection exists, print the close line
on stdout and close it; otherwise return nil.  The socket value is returned
unchanged (the Go method mutates no field). -/
def ftpPassiveSocket.Close (env : Env) (s : ftpPassiveSocket) :
    Option NetError × ftpPassiveSocket × Output :=
  match s.conn with
  | some c => (env.connClose c, s, { sinkLog := [], stdout := ["close " ++ natToString s.port] })
  | none => (none, s, { sinkLog := [], stdout := [] })

/-- The address string GoListenAndServe resolves before listening:
net.JoinHostPort of the empty string and the requested port.  Note the
empty string: the bind host stored in the socket is not used here. -/
def listenAddrString (port : Nat) : String :=
  joinHostPort "" (natToString port)

/-- Port extraction from listener.Addr().String(): split on the colon and
convert the last piece with strconv.Atoi. -/
def parsePort (addr : String) : Option Nat :=
  match (splitOnChar ':' addr.data).getLast? with
  | some lastPiece => atoiNat lastPiece
  | none => none

/-- The listener wrapping at lines 182 to 184: when the tlsConfig field is
set, substitute tls.NewListener around the TCP listener. -/
def wrapTLS (cfg : Option TLSConfig) (L : Listener) : Listener :=
  match cfg with
  | some _ => .tlsWrapped L
  | none => L

/-- GoListenAndServe, synchronous part: resolve the wildcard listen
address, listen, parse the OS-assigned port out of the listener address
string, store it in the port field, add one to the WaitGroup, and wrap the
listener when the tlsConfig field is set.  Each failure is logged through
the sink and returned.  The spawned goroutine is modelled separately by
acceptGoroutine and by the step system. -/
def GoListenAndServe (env : Env) (s : ftpPassiveSocket) (sessionID : String) :
    Except NetError (ftpPassiveSocket × Listener) × Output :=
  match env.resolve (listenAddrString s.port) with
  | .error e => (.error e, { sinkLog := [(sessionID, e.message)], stdout := [] })
  | .ok laddr =>
    match env.listenTCP laddr with
    | .error e => (.error e, { sinkLog := [(sessionID, e.message)], stdout := [] })
    | .ok addrString =>
      match parsePort addrString with
      | none =>
        (.error (.atoiError addrString),
          { sinkLog := [(sessionID, (NetError.atoiError addrString).message)], stdout := [] })
      | some port =>
        let s1 : ftpPassiveSocket := { s with port := port, wgCount := s.wgCount + 1 }
        (.ok (s1, wrapTLS s1.tlsConfig (Listener.tcp addrString)), { sinkLog := [], stdout := [] })

/-- Field updates performed by the accept goroutine once Accept has
returned: on error, store it in err and let the deferred Done run; on
success, clear err, store the stream in conn, and let the deferred Done
run.  Done decrements the WaitGroup counter. -/
def acceptTask (res : Except NetError Conn) (s : ftpPassiveSocket) : ftpPassiveSocket :=
  match res with
  | .error e => { s with err := some e, wgCount := s.wgCount - 1 }
  | .ok c => { s with err := none, conn := some c, wgCount := s.wgCount - 1 }

/-- The whole accept goroutine: first the SetDeadline call performs the
type assertion of the listener to net.TCPListener; if it panics the
goroutine dies before Accept (none branch), otherwise Accept runs and the
fields are updated. -/
def acceptGoroutine (env : Env) (L : Listener) (s : ftpPassiveSocket) :
    Option ftpPassiveSocket :=
  match assertTCPListener L with
  | none => none
  | some _ => some (acceptTask (listenerAccept env L) s)

/-- newPassiveSocket: build the zero-valued struct, fill the channels, the
logger, the host and the requested port, run GoListenAndServe, and on
success print the open line on stdout.  The tlsConfing parameter mirrors
the Go parameter of the same (misspelled) name: the source never assigns
it to the tlsConfig field, which therefore keeps its zero value nil. -/
def newPassiveSocket (env : Env) (host : String) (port : Nat) (sessionID : String)
    (tlsConfing : Option TLSConfig) :
    Except NetError (ftpPassiveSocket × Listener) × Output :=
  match GoListenAndServe env
      { conn := none, port := port, host := host, ingress := [], egress := [],
        err := none, wgCount := 0, tlsConfig := none } sessionID with
  | (.error e, out) => (.error e, out)
  | (.ok (s1, L), out) =>
    (.ok (s1, L), { sinkLog := out.sinkLog, stdout := out.stdout ++ ["open " ++ natToString s1.port] })

/-- Program counter of the accept goroutine.  The assertion of the
listener happens first (inside the SetDeadline line); a failed assertion
panics before the deferred Done is even registered, so a panicked task
never releases the WaitGroup.  On the normal path the goroutine obtains
the Accept result, writes the fields, and only then runs the deferred
Done. -/
inductive TaskPC where
  | beforeAccept
  | gotResult (r : Except NetError Conn)
  | fieldsSet
  | taskExited
  | panicked
deriving Repr

/-- Program counter of a caller sitting in waitForOpenSocket: about to
test the conn field, blocked in wg.Wait(), or returned with a value. -/
inductive ReaderPC where
  | start
  | waiting
  | returned (r : Option NetError)
deriving DecidableEq, Repr

/-- Interleaving state of one passive socket after GoListenAndServe has
returned: the two shared fields, the WaitGroup counter, and the two
program counters. -/
structure Sys where
  conn : Option Conn
  err : Option NetError
  wg : Nat
  task : TaskPC
  reader : ReaderPC
deriving Repr

/-- State right after GoListenAndServe returned: wg.Add(1) has run, the
goroutine is about to execute, no caller has returned from the guard. -/
def initSys : Sys :=
  { conn := none, err := none, wg := 1, task := .beforeAccept, reader := .start }

/-- One interleaving step, for a fixed oracle and the listener the
goroutine captured.  Task steps mirror the goroutine body line by line;
reader steps mirror waitForOpenSocket: the conn test, and wg.Wait() which
completes only when the counter is zero. -/
inductive Step (env : Env) (L : Listener) : Sys → Sys → Prop
  | taskAccept (s : Sys) (tcpL : Listener) :
      s.task = .beforeAccept → assertTCPListener L = some tcpL →
      Step env L s { s with task := .gotResult (listenerAccept env L) }
  | taskPanic (s : Sys) :
      s.task = .beforeAccept → assertTCPListener L = none →
      Step env L s { s with task := .panicked }
  | taskSetFail (s : Sys) (e : NetError) :
      s.task = .gotResult (.error e) →
      Step env L s { s with err := some e, task := .fieldsSet }
  | taskSetOk (s : Sys) (c : Conn) :
      s.task = .gotResult (.ok c) →
      Step env L s { s with err := none, conn := some c, task := .fieldsSet }
  | taskDone (s : Sys) :
      s.task = .fieldsSet →
      Step env L s { s with task := .taskExited, wg := s.wg - 1 }
  | readerCheckSome (s : Sys) :
      s.reader = .start → s.conn.isSome →
      Step env L s { s with reader := .returned none }
  | readerCheckNone (s : Sys) :
      s.reader = .start → s.conn = none →
      Step env L s { s with reader := .waiting }
  | readerWake (s : Sys) :
      s.reader = .waiting → s.wg = 0 →
      Step env L s { s with reader := .returned s.err }

/-- States reachable from the post-construction state. -/
def Reachable (env : Env) (L : Listener) (s : Sys) : Prop :=
  Relation.ReflTransGen (Step env L) initSys s

/-- The readiness gate of the spec, read off the system state: it is
resolved once the goroutine has written its result fields. -/
inductive GateState where
  | pending
  | ready (c : Conn)
  | failed (e : NetError)
deriving DecidableEq, Repr

/-- Gate state of a system state. -/
def Sys.gate (s : Sys) : GateState :=
  match s.task with
  | .fieldsSet | .taskExited =>
    match s.conn, s.err with
    | some c, _ => .ready c
    | none, some e => .failed e
    | none, none => .pending
  | _ => .pending

/-- Inductive invariant of the step system: the shared fields are
determined by the task program counter and the Accept result, the
WaitGroup counter is zero exactly after the deferred Done, and a returned
reader implies the fields were already written. -/
def Inv (env : Env) (L : Listener) (s : Sys) : Prop :=
  (s.task = .beforeAccept → s.conn = none ∧ s.err = none ∧ s.wg = 1) ∧
  (∀ r, s.task = .gotResult r →
      s.conn = none ∧ s.err = none ∧ s.wg = 1 ∧ r = listenerAccept env L) ∧
  (s.task = .panicked → s.conn = none ∧ s.err = none ∧ s.wg = 1) ∧
  ((s.task = .fieldsSet ∨ s.task = .taskExited) →
      (match listenerAccept env L with
        | .ok c => s.conn = some c ∧ s.err = none
        | .error e => s.conn = none ∧ s.err = some e) ∧
      s.wg = (match s.task with | .taskExited => 0 | _ => 1)) ∧
  (∀ r, s.reader = .returned r → (s.task = .fieldsSet ∨ s.task = .taskExited))

/-- An oracle on which every call succeeds: resolution is the identity,
the dial hands out stream 1, the listener binds 127.0.0.1:2024, accept
hands out stream 7, reads and writes transfer the whole buffer. -/
def happyEnv : Env :=
  { resolve := fun a => .ok a
    dial := fun _ _ => .ok { id := 1, isTLS := false }
    listenTCP := fun _ => .ok "127.0.0.1:2024"
    acceptRaw := fun _ => .ok 7
    connRead := fun _ p => (p.length, none)
    connWrite := fun _ p => (p.length, none)
    connClose := fun _ => none }

/-- An oracle that resolves only the explicit loopback address
127.0.0.1:0 and fails on every other string, in particular on the
wildcard form :0. -/
def hostOnlyEnv : Env :=
  { happyEnv with
      resolve := fun a => if a = "127.0.0.1:0" then .ok a else .error (.resolveError a) }

/-- An oracle that agrees with happyEnv on the wildcard address :0 (and on
listening) but differs everywhere else. -/
def agreeEnv : Env :=
  { happyEnv with
      resolve := fun a => if a = ":0" then .ok a else .error (.resolveError a)
      dial := fun a _ => .error (.dialError a)
      acceptRaw := fun _ => .error .acceptTimeout }

/-- A sample TLS configuration. -/
def sampleCfg : TLSConfig := { certId := 0 }

/-- A freshly constructed passive socket value before GoListenAndServe,
used as a concrete input in witnesses. -/
def freshPassive : ftpPassiveSocket :=
  { conn := none, port := 0, host := "127.0.0.1", ingress := [], egress := [],
    err := none, wgCount := 0, tlsConfig := none }

/-- A passive socket whose accept has completed with stream 7. -/
def readyPassive : ftpPassiveSocket :=
  { conn := some { id := 7, isTLS := false }, port := 2024, host := "127.0.0.1",
    ingress := [], egress := [], err := none, wgCount := 0, tlsConfig := none }

/-- A concrete active socket as built by newActiveSocket on happyEnv. -/
def sampleActive : ftpActiveSocket :=
  { conn := { id := 1, isTLS := false }, host := "127.0.0.1", port := 2024 }

/-- The passive socket as it stands after a successful GoListenAndServe on
happyEnv: bound port 2024, WaitGroup at one, no TLS. -/
def boundPassive : ftpPassiveSocket :=
  { conn := none, port := 2024, host := "127.0.0.1", ingress := [], egress := [],
    err := none, wgCount := 1, tlsConfig := none }

/-- A passive socket whose tlsConfig field has been set by hand (no
constructor of the module ever sets it). -/
def tlsPassive : ftpPassiveSocket :=
  { freshPassive with tlsConfig := some sampleCfg }

/-- System state after the accept goroutine wrote its fields but before
the deferred Done, on happyEnv with listener tcp a. -/
def sysFields : Sys :=
  { conn := some { id := 7, isTLS := false }, err := none, wg := 1,
    task := .fieldsSet, reader := .start }

/-- System state after the goroutine exited, on happyEnv with listener
tcp a. -/
def sysExited : Sys :=
  { conn := some { id := 7, isTLS := false }, err := none, wg := 0,
    task := .taskExited, reader := .start }

theorem inv_init (env : Env) (L : Listener) : Inv env L initSys := by
  refine ⟨fun _ => ⟨rfl, rfl, rfl⟩, ?_, ?_, ?_, ?_⟩
  · intro r hr; exact absurd hr (by simp [initSys])
  · intro hr; exact absurd hr (by simp [initSys])
  · intro hr
    rcases hr with hr | hr <;> exact absurd hr (by simp [initSys])
  · intro r hr; exact absurd hr (by simp [initSys])

theorem step_preserves_inv {env : Env} {L : Listener} {s t : Sys}
    (hinv : Inv env L s) (hstep : Step env L s t) : Inv env L t := by
  obtain ⟨h1, h2, h3, h4, h5⟩ := hinv
  cases hstep with
  | taskAccept tcpL ht ha =>
      obtain ⟨hc, he, hw⟩ := h1 ht
      refine ⟨by simp, ?_, by simp, by simp, ?_⟩
      · intro r hr
        have hr2 : TaskPC.gotResult (listenerAccept env L) = TaskPC.gotResult r := hr
        injection hr2 with hr3
        exact ⟨hc, he, hw, hr3.symm⟩
      · intro r hr
        rcases h5 r hr with hx | hx <;> simp [ht] at hx
  | taskPanic ht ha =>
      obtain ⟨hc, he, hw⟩ := h1 ht
      refine ⟨by simp, by simp, fun _ => ⟨hc, he, hw⟩, by simp, ?_⟩
      intro r hr
      rcases h5 r hr with hx | hx <;> simp [ht] at hx
  | taskSetFail e ht =>
      obtain ⟨hc, he, hw, hacc⟩ := h2 _ ht
      refine ⟨by simp, by simp, by simp, ?_, ?_⟩
      · intro _
        refine ⟨?_, by simp [hw]⟩
        show (match listenerAccept env L with
          | Except.ok c => s.conn = some c ∧ (some e : Option NetError) = none
          | Except.error e0 => s.conn = none ∧ (some e : Option NetError) = some e0)
        rw [← hacc]
        exact ⟨hc, rfl⟩
      · intro r hr
        rcases h5 r hr with hx | hx <;> simp [ht] at hx
  | taskSetOk c ht =>
      obtain ⟨hc, he, hw, hacc⟩ := h2 _ ht
      refine ⟨by simp, by simp, by simp, ?_, ?_⟩
      · intro _
        refine ⟨?_, by simp [hw]⟩
        show (match listenerAccept env L with
          | Except.ok c0 => (some c : Option Conn) = some c0 ∧ (none : Option NetError) = none
          | Except.error e0 => (some c : Option Conn) = none ∧ (none : Option NetError) = some e0)
        rw [← hacc]
        exact ⟨rfl, rfl⟩
      · intro r hr
        rcases h5 r hr with hx | hx <;> simp [ht] at hx
  | taskDone ht =>
      obtain ⟨hf, hw⟩ := h4 (Or.inl ht)
      refine ⟨by simp, by simp, by simp, ?_, ?_⟩
      · intro _
        refine ⟨hf, ?_⟩
        have hw1 : s.wg = 1 := by
          rw [ht] at hw
          exact hw
        show s.wg - 1 = 1 - 1
        rw [hw1]
      · intro r hr
        exact Or.inr rfl
  | readerCheckSome hr hc =>
      refine ⟨h1, h2, h3, h4, ?_⟩
      intro r _
      rcases hs : s.task with h | r0 | h | h | h
      · obtain ⟨hcn, _, _⟩ := h1 hs; simp [hcn] at hc
      · obtain ⟨hcn, _, _, _⟩ := h2 _ hs; simp [hcn] at hc
      · exact Or.inl rfl
      · exact Or.inr rfl
      · obtain ⟨hcn, _, _⟩ := h3 hs; simp [hcn] at hc
  | readerCheckNone hr hc =>
      refine ⟨h1, h2, h3, h4, ?_⟩
      intro r hr2
      exact ReaderPC.noConfusion hr2
  | readerWake hr hw =>
      refine ⟨h1, h2, h3, h4, ?_⟩
      intro r _
      rcases hs : s.task with h | r0 | h | h | h
      · obtain ⟨_, _, hw1⟩ := h1 hs; simp [hw1] at hw
      · obtain ⟨_, _, hw1, _⟩ := h2 _ hs; simp [hw1] at hw
      · exact Or.inl rfl
      · exact Or.inr rfl
      · obtain ⟨_, _, hw1⟩ := h3 hs; simp [hw1] at hw

theorem reachable_inv {env : Env} {L : Listener} {s : Sys}
    (h : Reachable env L s) : Inv env L s := by
  induction h with
  | refl => exact inv_init env L
  | tail _ hstep ih => exact step_preserves_inv ih hstep

theorem goListenAndServe_ok_fields {env : Env} {s s1 : ftpPassiveSocket} {L : Listener}
    {sid : String} {out : Output}
    (h : GoListenAndServe env s sid = (.ok (s1, L), out)) :
    s1.host = s.host ∧ s1.tlsConfig = s.tlsConfig ∧
    ∃ addrStr, L = wrapTLS s.tlsConfig (Listener.tcp addrStr) := by
  unfold GoListenAndServe at h
  split at h
  · simp at h
  · split at h
    · simp at h
    · split at h
      · simp at h
      · simp only [Prod.mk.injEq, Except.ok.injEq] at h
        obtain ⟨⟨hs1, hL⟩, _⟩ := h
        exact ⟨by rw [← hs1], by rw [← hs1], ⟨_, hL.symm⟩⟩

/-- C2: once the accept phase of a passive socket has resolved to a
failure e, every subsequent Read and Write returns that same error with
zero bytes, independently of the oracle (the stream is never consulted),
and the connection field stays empty; being pure, repeated calls return
the identical value. -/
theorem C2_failed_accept_terminal (s0 : ftpPassiveSocket) (e : NetError)
    (h0 : s0.conn = none) :
    (∀ (env : Env) (p : List Nat),
        ftpPassiveSocket.Read env (acceptTask (.error e) s0) p = (0, some e)) ∧
    (∀ (env : Env) (p : List Nat),
        ftpPassiveSocket.Write env (acceptTask (.error e) s0) p = (0, some e)) ∧
    (acceptTask (.error e) s0).conn = none := by
  have hc : (acceptTask (.error e) s0).conn = none := h0
  have hwait : (acceptTask (.error e) s0).waitForOpenSocket = some e := by
    show (if (acceptTask (.error e) s0).conn.isSome then none
          else (acceptTask (.error e) s0).err) = some e
    rw [hc]
    rfl
  refine ⟨?_, ?_, hc⟩ <;> intro env p
  · unfold ftpPassiveSocket.Read
    rw [hwait]
  · unfold ftpPassiveSocket.Write
    rw [hwait]

theorem C2_witness :
    ftpPassiveSocket.Read happyEnv (acceptTask (.error .acceptTimeout) freshPassive) [1, 2] =
      (0, some .acceptTimeout) ∧
    ftpPassiveSocket.Write happyEnv (acceptTask (.error .acceptTimeout) freshPassive) [3] =
      (0, some .acceptTimeout) :=
  ⟨(C2_failed_accept_terminal freshPassive .acceptTimeout rfl).1 happyEnv [1, 2],
   (C2_failed_accept_terminal freshPassive .acceptTimeout rfl).2.1 happyEnv [3]⟩

/-- C3: when a passive socket is requested with port 0 and the OS hands
the listener a bound address whose port parses to a nonzero p,
construction succeeds, Port() returns that p, it is nonzero, and the
accept task never changes it, so repeated calls keep returning p. -/
theorem C3_os_assigned_port (env : Env) (host sid : String) (cfgArg : Option TLSConfig)
    (laddr addrStr : String) (p : Nat) (s : ftpPassiveSocket) (L : Listener) (out : Output)
    (h1 : env.resolve (listenAddrString 0) = .ok laddr)
    (h2 : env.listenTCP laddr = .ok addrStr)
    (h3 : parsePort addrStr = some p)
    (hp : p ≠ 0)
    (hC : newPassiveSocket env host 0 sid cfgArg = (.ok (s, L), out)) :
    ftpPassiveSocket.Port s = p ∧ ftpPassiveSocket.Port s ≠ 0 ∧
    ∀ r, ftpPassiveSocket.Port (acceptTask r s) = ftpPassiveSocket.Port s := by
  have hmain : newPassiveSocket env host 0 sid cfgArg =
      (.ok ({ conn := none, port := p, host := host, ingress := [], egress := [],
              err := none, wgCount := 1, tlsConfig := none }, Listener.tcp addrStr),
        { sinkLog := [], stdout := ["open " ++ natToString p] }) := by
    unfold newPassiveSocket GoListenAndServe
    simp [h1, h2, h3, wrapTLS]
  rw [hmain] at hC
  simp only [Prod.mk.injEq, Except.ok.injEq] at hC
  obtain ⟨⟨hs, hL⟩, hout⟩ := hC
  subst hs
  exact ⟨rfl, hp, fun r => by cases r <;> rfl⟩

theorem C3_witness :
    ftpPassiveSocket.Port boundPassive = 2024 ∧
    ftpPassiveSocket.Port boundPassive ≠ 0 ∧
    ftpPassiveSocket.Port (acceptTask (.error .acceptTimeout) boundPassive) =
      ftpPassiveSocket.Port boundPassive :=
  ⟨(C3_os_assigned_port happyEnv "127.0.0.1" "s1" none ":0" "127.0.0.1:2024" 2024
      boundPassive (Listener.tcp "127.0.0.1:2024")
      { sinkLog := [], stdout := ["open 2024"] } rfl rfl rfl (by decide) rfl).1,
   (C3_os_assigned_port happyEnv "127.0.0.1" "s1" none ":0" "127.0.0.1:2024" 2024
      boundPassive (Listener.tcp "127.0.0.1:2024")
      { sinkLog := [], stdout := ["open 2024"] } rfl rfl rfl (by decide) rfl).2.1,
   (C3_os_assigned_port happyEnv "127.0.0.1" "s1" none ":0" "127.0.0.1:2024" 2024
      boundPassive (Listener.tcp "127.0.0.1:2024")
      { sinkLog := [], stdout := ["open 2024"] } rfl rfl rfl (by decide) rfl).2.2
      (.error .acceptTimeout)⟩

/-- C4: Close on a passive socket whose conn field is still empty returns
no error, leaves the socket unchanged, and any number of repeated Close
calls keeps returning no error. -/
theorem C4_close_never_connected (env : Env) (s : ftpPassiveSocket) (h : s.conn = none) :
    (ftpPassiveSocket.Close env s).1 = none ∧
    (ftpPassiveSocket.Close env s).2.1 = s ∧
    ∀ n : Nat,
      (ftpPassiveSocket.Close env
        ((fun t => (ftpPassiveSocket.Close env t).2.1)^[n] s)).1 = none := by
  have hcl : ftpPassiveSocket.Close env s = (none, s, { sinkLog := [], stdout := [] }) := by
    unfold ftpPassiveSocket.Close
    rw [h]
  have hfix : (fun t => (ftpPassiveSocket.Close env t).2.1) s = s := by
    show (ftpPassiveSocket.Close env s).2.1 = s
    rw [hcl]
  refine ⟨by rw [hcl], by rw [hcl], ?_⟩
  intro n
  rw [Function.iterate_fixed hfix n, hcl]

theorem C4_witness :
    (ftpPassiveSocket.Close happyEnv freshPassive).1 = none ∧
    (ftpPassiveSocket.Close happyEnv
      ((fun t => (ftpPassiveSocket.Close happyEnv t).2.1)^[3] freshPassive)).1 = none :=
  ⟨(C4_close_never_connected happyEnv freshPassive rfl).1,
   (C4_close_never_connected happyEnv freshPassive rfl).2.2 3⟩

/-- C5: active construction is synchronous and atomic.  A resolution
failure or a dial failure (bounded by the 15 second timeout) is returned
at once with no socket; on success the dialed stream is the conn field and
Read, Write and Close delegate to it directly, with no gate in between. -/
theorem C5_active_synchronous (env : Env) (remote : String) (port : Nat) (sid : String) :
    (∀ e, env.resolve (joinHostPort remote (natToString port)) = .error e →
        (newActiveSocket env remote port sid).1 = .error e) ∧
    (∀ a e, env.resolve (joinHostPort remote (natToString port)) = .ok a →
        env.dial a dialTimeoutSeconds = .error e →
        (newActiveSocket env remote port sid).1 = .error e) ∧
    (∀ s, (newActiveSocket env remote port sid).1 = .ok s →
        (∃ a, env.resolve (joinHostPort remote (natToString port)) = .ok a ∧
            env.dial a dialTimeoutSeconds = .ok s.conn) ∧
        (∀ p, ftpActiveSocket.Read env s p = env.connRead s.conn p) ∧
        (∀ p, ftpActiveSocket.Write env s p = env.connWrite s.conn p) ∧
        (ftpActiveSocket.Close env s).1 = env.connClose s.conn) := by
  refine ⟨?_, ?_, ?_⟩
  · intro e he
    unfold newActiveSocket
    simp [he]
  · intro a e ha he
    unfold newActiveSocket
    simp [ha, he]
  · intro s hs
    unfold newActiveSocket at hs
    split at hs
    · cases hs
    · split at hs
      · cases hs
      · rename_i a hres x2 c hdial
        have hsc : s = { conn := c, host := remote, port := port } :=
          (Except.ok.inj hs).symm
        subst hsc
        exact ⟨⟨a, hres, hdial⟩, fun p => rfl, fun p => rfl, rfl⟩

theorem C5_witness :
    (newActiveSocket happyEnv "127.0.0.1" 2024 "s1").1 = .ok sampleActive ∧
    ftpActiveSocket.Read happyEnv sampleActive [9] = happyEnv.connRead sampleActive.conn [9] ∧
    (newActiveSocket agreeEnv "127.0.0.1" 2024 "s1").1 =
      .error (.resolveError "127.0.0.1:2024") := by
  refine ⟨rfl, ?_, ?_⟩
  · exact ((C5_active_synchronous happyEnv "127.0.0.1" 2024 "s1").2.2 sampleActive rfl).2.1 [9]
  · exact (C5_active_synchronous agreeEnv "127.0.0.1" 2024 "s1").1
      (.resolveError "127.0.0.1:2024") rfl

/-- C1: code-bug evaluation.  A passive socket constructed with a TLS
configuration present keeps tlsConfig none (the tlsConfing parameter is
never assigned), the listener handed to the accept goroutine is the bare
TCP listener, and the stream it accepts and stores in the conn field is
the raw, non-TLS stream.  The claim that accepted connections are
upgraded to TLS before being exposed is therefore false on the code. -/
theorem C1_tls_config_dropped :
    newPassiveSocket happyEnv "127.0.0.1" 2024 "s1" (some sampleCfg) =
      (.ok (boundPassive, Listener.tcp "127.0.0.1:2024"),
        { sinkLog := [], stdout := ["open 2024"] }) ∧
    boundPassive.tlsConfig = none ∧
    listenerAccept happyEnv (Listener.tcp "127.0.0.1:2024") =
      .ok { id := 7, isTLS := false } ∧
    (acceptTask (listenerAccept happyEnv (Listener.tcp "127.0.0.1:2024")) boundPassive).conn =
      some { id := 7, isTLS := false } :=
  ⟨rfl, rfl, rfl, rfl⟩

/-- C6: code-bug evaluation.  The open and close events of both socket
kinds go to fmt.Println (stdout), not to the diagnostic sink: closing an
active socket and closing a passive socket record nothing in the sink, and
a successful passive construction records nothing in the sink either.  The
claim that a sink event is emitted at open and at close is therefore false
on the code. -/
theorem C6_events_bypass_sink :
    (ftpActiveSocket.Close happyEnv sampleActive).2.sinkLog = [] ∧
    (ftpActiveSocket.Close happyEnv sampleActive).2.stdout = ["close 2024"] ∧
    (newPassiveSocket happyEnv "127.0.0.1" 0 "s1" none).2.sinkLog = [] ∧
    (newPassiveSocket happyEnv "127.0.0.1" 0 "s1" none).2.stdout = ["open 2024"] ∧
    (ftpPassiveSocket.Close happyEnv readyPassive).2.2.sinkLog = [] ∧
    (ftpPassiveSocket.Close happyEnv readyPassive).2.2.stdout = ["close 2024"] :=
  ⟨rfl, rfl, rfl, rfl, rfl, rfl⟩

/-- C7 counterexample: constructing a passive socket with bind host
127.0.0.1 under an oracle that resolves exactly the address 127.0.0.1:0
fails with a resolution error on the wildcard string :0 — the code
resolves and binds the empty host joined with the port, not the
caller-supplied bind host, although that host would resolve. -/
theorem C7_counterexample :
    (newPassiveSocket hostOnlyEnv "127.0.0.1" 0 "s1" none).1 =
      .error (.resolveError ":0") ∧
    hostOnlyEnv.resolve (joinHostPort "127.0.0.1" (natToString 0)) = .ok "127.0.0.1:0" :=
  ⟨rfl, rfl⟩

/-- C7 amended: passive construction consults the oracle only at the
wildcard address (empty host joined with the requested port) — two oracles
agreeing there and on listening produce identical results — while the
caller-supplied bind host is merely recorded and reported by Host(). -/
theorem C7_wildcard_bind (env env2 : Env) (s : ftpPassiveSocket) (sid : String)
    (host : String) (port : Nat) (cfgArg : Option TLSConfig)
    (hr : env.resolve (listenAddrString s.port) = env2.resolve (listenAddrString s.port))
    (hl : ∀ a, env.listenTCP a = env2.listenTCP a) :
    GoListenAndServe env s sid = GoListenAndServe env2 s sid ∧
    (∀ s1 L out, newPassiveSocket env host port sid cfgArg = (.ok (s1, L), out) →
        ftpPassiveSocket.Host s1 = host) := by
  constructor
  · unfold GoListenAndServe
    rw [hr]
    cases env2.resolve (listenAddrString s.port) with
    | error e => rfl
    | ok laddr => simp only [hl]
  · intro s1 L out hC
    unfold newPassiveSocket at hC
    split at hC
    · simp at hC
    · rename_i sA LA out0 heq
      simp only [Prod.mk.injEq, Except.ok.injEq] at hC
      obtain ⟨⟨hs1, hL⟩, hout⟩ := hC
      have hh := (goListenAndServe_ok_fields heq).1
      rw [← hs1]
      exact hh

theorem C7_witness :
    GoListenAndServe happyEnv freshPassive "s1" = GoListenAndServe agreeEnv freshPassive "s1" ∧
    ftpPassiveSocket.Host boundPassive = "127.0.0.1" := by
  have h := C7_wildcard_bind happyEnv agreeEnv freshPassive "s1" "127.0.0.1" 0 none rfl
    (fun a => rfl)
  exact ⟨h.1, h.2 boundPassive (Listener.tcp "127.0.0.1:2024")
    { sinkLog := [], stdout := ["open 2024"] } rfl⟩

/-- C10: when the tlsConfig field of a passive socket is set, a successful
GoListenAndServe hands the goroutine a TLS-wrapped listener, the type
assertion to net.TCPListener on the SetDeadline line fails (the panic
branch of the embedding), and the accept goroutine therefore cannot run:
acceptGoroutine is none for every oracle. -/
theorem C10_tls_assert_panics (env : Env) (cfg : TLSConfig) (s s1 : ftpPassiveSocket)
    (L : Listener) (sid : String) (out : Output)
    (hcfg : s.tlsConfig = some cfg)
    (h : GoListenAndServe env s sid = (.ok (s1, L), out)) :
    (∃ L0, L = Listener.tlsWrapped L0) ∧
    assertTCPListener L = none ∧
    ∀ env2, acceptGoroutine env2 L s1 = none := by
  obtain ⟨_, _, addrStr, hL⟩ := goListenAndServe_ok_fields h
  rw [hcfg] at hL
  refine ⟨⟨Listener.tcp addrStr, hL⟩, ?_, ?_⟩
  · rw [hL]; rfl
  · intro env2
    rw [hL]; rfl

theorem C10_witness :
    assertTCPListener (Listener.tlsWrapped (Listener.tcp "127.0.0.1:2024")) = none ∧
    acceptGoroutine happyEnv (Listener.tlsWrapped (Listener.tcp "127.0.0.1:2024"))
      { tlsPassive with port := 2024, wgCount := 1 } = none := by
  have h := C10_tls_assert_panics happyEnv sampleCfg tlsPassive
    { tlsPassive with port := 2024, wgCount := 1 }
    (Listener.tlsWrapped (Listener.tcp "127.0.0.1:2024")) "s1"
    { sinkLog := [], stdout := [] } rfl rfl
  exact ⟨h.2.1, h.2.2 happyEnv⟩

/-- C8: in every reachable state of a passive socket the gate never holds
both a stream and an error; the gate starts Pending; one step never moves
a resolved gate; and a resolved gate is Ready with the accepted stream or
Failed with the accept error, according to the one Accept result. -/
theorem C8_gate_resolves_once (env : Env) (L : Listener) (s t : Sys)
    (h : Reachable env L s) :
    ¬(s.conn.isSome ∧ s.err.isSome) ∧
    initSys.gate = GateState.pending ∧
    (Step env L s t → s.gate ≠ GateState.pending → t.gate = s.gate) ∧
    (s.gate ≠ GateState.pending →
      (∃ c, listenerAccept env L = .ok c ∧ s.gate = .ready c) ∨
      (∃ e, listenerAccept env L = .error e ∧ s.gate = .failed e)) := by
  obtain ⟨h1, h2, h3, h4, h5⟩ := reachable_inv h
  have hboth : ¬(s.conn.isSome ∧ s.err.isSome) := by
    rintro ⟨hc, he⟩
    rcases hs : s.task with _ | r | _ | _ | _
    · obtain ⟨hcn, _, _⟩ := h1 hs; rw [hcn] at hc; cases hc
    · obtain ⟨hcn, _, _, _⟩ := h2 _ hs; rw [hcn] at hc; cases hc
    · obtain ⟨hf, _⟩ := h4 (Or.inl hs)
      cases hacc : listenerAccept env L with
      | ok c => rw [hacc] at hf; rw [hf.2] at he; cases he
      | error e => rw [hacc] at hf; rw [hf.1] at hc; cases hc
    · obtain ⟨hf, _⟩ := h4 (Or.inr hs)
      cases hacc : listenerAccept env L with
      | ok c => rw [hacc] at hf; rw [hf.2] at he; cases he
      | error e => rw [hacc] at hf; rw [hf.1] at hc; cases hc
    · obtain ⟨hcn, _, _⟩ := h3 hs; rw [hcn] at hc; cases hc
  have hresolved : s.gate ≠ GateState.pending →
      (s.task = TaskPC.fieldsSet ∨ s.task = TaskPC.taskExited) := by
    intro hg
    rcases hs : s.task with _ | r | _ | _ | _
    · exact absurd (by unfold Sys.gate; rw [hs]) hg
    · exact absurd (by unfold Sys.gate; rw [hs]) hg
    · exact Or.inl rfl
    · exact Or.inr rfl
    · exact absurd (by unfold Sys.gate; rw [hs]) hg
  refine ⟨hboth, rfl, ?_, ?_⟩
  · intro hstep hg
    cases hstep with
    | taskAccept tcpL ht ha => exact absurd (by unfold Sys.gate; rw [ht]) hg
    | taskPanic ht ha => exact absurd (by unfold Sys.gate; rw [ht]) hg
    | taskSetFail e ht => exact absurd (by unfold Sys.gate; rw [ht]) hg
    | taskSetOk c ht => exact absurd (by unfold Sys.gate; rw [ht]) hg
    | taskDone ht =>
      show Sys.gate _ = s.gate
      unfold Sys.gate
      rw [ht]
    | readerCheckSome hrd hc => rfl
    | readerCheckNone hrd hc => rfl
    | readerWake hrd hw => rfl
  · intro hg
    have htask := hresolved hg
    obtain ⟨hf, hw⟩ := h4 htask
    cases hacc : listenerAccept env L with
    | ok c =>
      rw [hacc] at hf
      refine Or.inl ⟨c, rfl, ?_⟩
      unfold Sys.gate
      rcases htask with ht | ht <;> rw [ht, hf.1]
    | error e =>
      rw [hacc] at hf
      refine Or.inr ⟨e, rfl, ?_⟩
      unfold Sys.gate
      rcases htask with ht | ht <;> rw [ht, hf.1, hf.2]

theorem C8_witness :
    ¬(sysFields.conn.isSome ∧ sysFields.err.isSome) ∧
    initSys.gate = GateState.pending ∧
    (Step happyEnv (Listener.tcp "a") sysFields sysExited →
        sysFields.gate ≠ GateState.pending → sysExited.gate = sysFields.gate) ∧
    (sysFields.gate ≠ GateState.pending →
      (∃ c, listenerAccept happyEnv (Listener.tcp "a") = .ok c ∧ sysFields.gate = .ready c) ∨
      (∃ e, listenerAccept happyEnv (Listener.tcp "a") = .error e ∧
          sysFields.gate = .failed e)) := by
  have hreach : Reachable happyEnv (Listener.tcp "a") sysFields :=
    Relation.ReflTransGen.head
      (Step.taskAccept initSys (Listener.tcp "a") rfl rfl)
      (Relation.ReflTransGen.single
        (Step.taskSetOk _ { id := 7, isTLS := false } rfl))
  exact C8_gate_resolves_once happyEnv (Listener.tcp "a") sysFields sysExited hreach

/-- C9: in every reachable state, a caller that has returned from
waitForOpenSocket did so only after the accept goroutine wrote its result
(no spurious early return); and once the goroutine has fully exited, a
caller entering the guard reaches a returned state with no blocked
intermediate step. -/
theorem C9_wait_blocks_until_gate (env : Env) (L : Listener) (s : Sys)
    (h : Reachable env L s) :
    (∀ r, s.reader = ReaderPC.returned r →
        (s.task = TaskPC.fieldsSet ∨ s.task = TaskPC.taskExited)) ∧
    (s.task = TaskPC.taskExited → s.reader = ReaderPC.start →
        ∃ t, Relation.ReflTransGen (Step env L) s t ∧
          ∃ r, t.reader = ReaderPC.returned r) := by
  obtain ⟨h1, h2, h3, h4, h5⟩ := reachable_inv h
  refine ⟨h5, ?_⟩
  intro htask hread
  obtain ⟨hf, hw⟩ := h4 (Or.inr htask)
  have hw0 : s.wg = 0 := by rw [htask] at hw; exact hw
  cases hacc : listenerAccept env L with
  | ok c =>
    rw [hacc] at hf
    exact ⟨{ s with reader := .returned none },
      Relation.ReflTransGen.single
        (Step.readerCheckSome s hread (by rw [hf.1]; rfl)),
      none, rfl⟩
  | error e =>
    rw [hacc] at hf
    exact ⟨{ s with reader := .returned s.err },
      Relation.ReflTransGen.head
        (Step.readerCheckNone s hread hf.1)
        (Relation.ReflTransGen.single (Step.readerWake _ rfl hw0)),
      s.err, rfl⟩

theorem C9_witness :
    (sysExited.reader = ReaderPC.returned none →
        (sysExited.task = TaskPC.fieldsSet ∨ sysExited.task = TaskPC.taskExited)) ∧
    (∃ t, Relation.ReflTransGen (Step happyEnv (Listener.tcp "a")) sysExited t ∧
        ∃ r, t.reader = ReaderPC.returned r) := by
  have hreach : Reachable happyEnv (Listener.tcp "a") sysExited :=
    Relation.ReflTransGen.head
      (Step.taskAccept initSys (Listener.tcp "a") rfl rfl)
      (Relation.ReflTransGen.head
        (Step.taskSetOk _ { id := 7, isTLS := false } rfl)
        (Relation.ReflTransGen.single (Step.taskDone _ rfl)))
  have h := C9_wait_blocks_until_gate happyEnv (Listener.tcp "a") sysExited hreach
  exact ⟨h.1 none, h.2 rfl rfl⟩

end Server
